import Mathlib

set_option autoImplicit false

/-!
Verification of the Forseti Security inventory crawler contract and the
installer file utilities, as a shallow embedding of the repository.

Part A embeds the inventory crawler described by the specification and
exercised by `tests/iam/inventory_tests/crawling_test.py`.  The crawler
implementation itself (`run_crawler`, the `Memory` storage and the
`Progresser` base class) is not part of the given sources, only its test
and the specification are; those pieces are modelled from the spec and
are marked as such.  `NullProgresser` is embedded directly from the test
file.

Part B embeds `setup/gcp/installer/util/files.py` over an explicit
filesystem model: `generate_file_from_template`,
`generate_deployment_templates` and `generate_forseti_conf`, with
Python `str.format` named-placeholder substitution modelled explicitly
(a `KeyError` or `ValueError` from formatting propagates to the caller,
while an `EnvironmentError` on opening a file for reading or writing is
caught and surfaces as a `False` result).
-/

namespace Forseti

/-- Update an association list at a key: replace the first binding in
place when the key is present, append otherwise (Python dict
assignment semantics). -/
def upsert {α β : Type} [DecidableEq α] (k : α) (v : β) :
    List (α × β) → List (α × β)
  | [] => [(k, v)]
  | p :: t => if p.1 = k then (k, v) :: t else p :: upsert k v t

/-- First value bound to a key in an association list. -/
def alookup {α β : Type} [DecidableEq α] (k : α) : List (α × β) → Option β
  | [] => none
  | p :: t => if p.1 = k then some p.2 else alookup k t

/-- Modelled from the spec: a discovered resource.  `type` is the
resource kind (the test calls `item.type()`), `key` the kind-scoped
identity key, `parentKey` the parent identity key (none at the root),
`payload` the raw provider data. -/
structure Resource where
  type : String
  key : String
  parentKey : Option String
  payload : String
deriving Repr, DecidableEq

/-- The dedup/storage key of a resource: the (kind, identity key) pair. -/
def rkey (r : Resource) : String × String := (r.type, r.key)

/-- Modelled from the spec: the in-memory storage (`Memory` in
`google.cloud.security.inventory2.storage`).  `mem` is the backing
keyed mapping, modelled as an association list keyed by
(kind, identity key); the test reads `storage.mem.values()`. -/
structure Memory where
  mem : List ((String × String) × Resource)
deriving Repr, DecidableEq

/-- Modelled from the spec: `write(resource)` upserts keyed by
(kind, identity key); writing the same key twice replaces the prior
payload. -/
def Memory.write (m : Memory) (r : Resource) : Memory :=
  ⟨upsert (rkey r) r m.mem⟩

/-- `NullProgresser` from `tests/iam/inventory_tests/crawling_test.py`:
three counters, all initialised to zero by `__init__`. -/
structure NullProgresser where
  errors : Nat
  objects : Nat
  warnings : Nat
deriving Repr, DecidableEq

/-- `NullProgresser.__init__`: errors, objects and warnings all start at 0. -/
def NullProgresser.init : NullProgresser :=
  { errors := 0, objects := 0, warnings := 0 }

/-- `on_new_object`: `self.objects += 1`. -/
def NullProgresser.on_new_object (p : NullProgresser) (resource : Resource) :
    NullProgresser :=
  { p with objects := p.objects + 1 }

/-- `on_warning`: `self.warnings += 1`. -/
def NullProgresser.on_warning (p : NullProgresser) (warning : String) :
    NullProgresser :=
  { p with warnings := p.warnings + 1 }

/-- `on_error`: `self.errors += 1`. -/
def NullProgresser.on_error (p : NullProgresser) (error : String) :
    NullProgresser :=
  { p with errors := p.errors + 1 }

/-- `get_summary`: the body is `pass`, so the call returns Python `None`. -/
def NullProgresser.get_summary (p : NullProgresser) : Option Unit :=
  none

/-- One progresser callback invocation, with its argument. -/
inductive Callback where
  | newObjectCb (resource : Resource)
  | warningCb (warning : String)
  | errorCb (error : String)
deriving Repr, DecidableEq

/-- Dispatch one callback on a `NullProgresser`. -/
def applyCallback (p : NullProgresser) : Callback → NullProgresser
  | Callback.newObjectCb r => p.on_new_object r
  | Callback.warningCb w => p.on_warning w
  | Callback.errorCb e => p.on_error e

/-- Run a sequence of callbacks left to right. -/
def runCallbacks (p : NullProgresser) (cs : List Callback) : NullProgresser :=
  cs.foldl applyCallback p

def Callback.isNewObject : Callback → Bool
  | Callback.newObjectCb _ => true
  | _ => false

def Callback.isWarning : Callback → Bool
  | Callback.warningCb _ => true
  | _ => false

def Callback.isError : Callback → Bool
  | Callback.errorCb _ => true
  | _ => false

/-- A progresser notification emitted during a crawl run. -/
inductive Event where
  | newObject (r : Resource)
  | warningEv
  | errorEv
deriving Repr, DecidableEq

def Event.isNewObject : Event → Bool
  | Event.newObject _ => true
  | _ => false

def Event.isError : Event → Bool
  | Event.errorEv => true
  | _ => false

/-- Number of `on_new_object` notifications in an event trace. -/
def countNewObjects (l : List Event) : Nat :=
  (l.filter Event.isNewObject).length

/-- Number of `on_error` notifications in an event trace. -/
def countErrors (l : List Event) : Nat :=
  (l.filter Event.isError).length

/-- Modelled from the spec: a recoverable enumerator failure — either it
affects only an optional branch (reported as a warning) or it aborts the
whole subtree (reported as an error). -/
inductive EnumFailure where
  | optionalBranch
  | subtreeAbort
deriving Repr, DecidableEq

/-- Modelled from the spec: the external environment a crawl runs
against — the resource model's children-kinds table, one enumerator per
kind, the organization root lookup, and directory-credential
validation. -/
structure CrawlEnv where
  childrenKinds : String → List String
  enumerate : String → Resource → Except EnumFailure (List Resource)
  orgResource : String → Option Resource
  credsOk : String → String → Bool

/-- Modelled from the spec: the transient crawl-run state — the open
storage session, the visited-keys set for dedup, and the trace of
progresser notifications. -/
structure CrawlState where
  storage : Memory
  visited : List (String × String)
  events : List Event

/-- Modelled from the spec (§4.4): expand one resource.  For each child
kind of the resource's kind, invoke the enumerator; on failure report a
warning or error and continue with the next kind; for each yielded
child, skip it when its (kind, identity key) was already visited,
otherwise mark visited, write to storage, notify the progresser and
recurse.  `fuel` bounds the recursion depth; the hierarchy is finite so
a large enough fuel reaches the fixed point. -/
def crawlResource (env : CrawlEnv) : Nat → Resource → CrawlState → CrawlState
  | 0, _, s => s
  | Nat.succ fuel, res, s =>
    (env.childrenKinds res.type).foldl
      (fun s1 k =>
        match env.enumerate k res with
        | Except.error EnumFailure.optionalBranch =>
            { s1 with events := s1.events ++ [Event.warningEv] }
        | Except.error EnumFailure.subtreeAbort =>
            { s1 with events := s1.events ++ [Event.errorEv] }
        | Except.ok children =>
            children.foldl
              (fun s2 c =>
                if rkey c ∈ s2.visited then s2
                else
                  crawlResource env fuel c
                    { storage := s2.storage.write c,
                      visited := rkey c :: s2.visited,
                      events := s2.events ++ [Event.newObject c] }) s1) s

/-- Modelled from the spec: a condition fatal to the whole run,
re-raised to the caller. -/
inductive CrawlError where
  | fatalAuth
  | invalidOrgId
deriving Repr, DecidableEq

/-- Outcome of a crawl run: the storage left behind, the trace of
progresser notifications, and the fatal error when the run was
aborted. -/
structure RunResult where
  storage : Memory
  events : List Event
  fatal : Option CrawlError
deriving Repr, DecidableEq

/-- Modelled from the spec: the crawler entry point, called in the test
as `run_crawler(storage, progresser, gsuite_sa, gsuite_admin_email,
organization_id)`.  Invalid credentials or an unknown organization id
abort the run before anything is written; otherwise the synthetic root
resource is written, notified and expanded.  The progresser is
represented by the emitted event trace; `env` and `fuel` are model
parameters standing for the live environment. -/
def run_crawler (env : CrawlEnv) (fuel : Nat) (storage : Memory)
    (gsuite_sa : String) (gsuite_admin_email : String)
    (organization_id : String) : RunResult :=
  if env.credsOk gsuite_sa gsuite_admin_email then
    match env.orgResource organization_id with
    | none => ⟨storage, [], some CrawlError.invalidOrgId⟩
    | some root =>
        let s := crawlResource env fuel root
          { storage := storage.write root,
            visited := [rkey root],
            events := [Event.newObject root] }
        ⟨s.storage, s.events, none⟩
  else ⟨storage, [], some CrawlError.fatalAuth⟩

/-- Build a reference resource of a kind with an identity key. -/
def mkRes (t k : String) (pk : Option String) : Resource :=
  ⟨t, k, pk, k ++ "-data"⟩

/-- Modelled from the spec: the children-kinds table of the reference
environment (organization → folders, projects, IAM, directory branch;
folder → folders, projects; project → per-project resources;
directory group → members). -/
def refChildrenKinds (t : String) : List String :=
  match t with
  | "organization" =>
      ["folder", "project", "role", "iam_policy", "gsuite_group", "gsuite_user"]
  | "folder" => ["folder", "project"]
  | "project" =>
      ["role", "serviceaccount", "iam_policy", "bucket", "dataset", "instance",
       "firewall", "image", "network", "subnetwork", "sql_instance",
       "appengine_app"]
  | "gsuite_group" => ["gsuite_group_member"]
  | _ => []

/-- Modelled from the spec: the enumerators of the fully-permissioned
reference environment for organization 660570133860 — representative
folders, projects, IAM bindings, buckets, compute resources and
directory groups/users, spanning 18 distinct resource kinds in total
(the organization itself plus 17 child kinds). -/
def refChildren (k : String) (parent : Resource) : List Resource :=
  match k, parent.key with
  | "folder", "660570133860" =>
      [mkRes "folder" "folder-1" (some "660570133860")]
  | "project", "660570133860" =>
      [mkRes "project" "project-1" (some "660570133860")]
  | "project", "folder-1" => [mkRes "project" "project-2" (some "folder-1")]
  | "role", "660570133860" => [mkRes "role" "org-role-1" (some "660570133860")]
  | "iam_policy", "660570133860" =>
      [mkRes "iam_policy" "org-iam-policy" (some "660570133860")]
  | "gsuite_group", "660570133860" =>
      [mkRes "gsuite_group" "group-1" (some "660570133860")]
  | "gsuite_user", "660570133860" =>
      [mkRes "gsuite_user" "user-1" (some "660570133860")]
  | "gsuite_group_member", "group-1" =>
      [mkRes "gsuite_group_member" "member-1" (some "group-1")]
  | "role", "project-1" => [mkRes "role" "project-role-1" (some "project-1")]
  | "serviceaccount", "project-1" =>
      [mkRes "serviceaccount" "sa-1" (some "project-1")]
  | "iam_policy", "project-1" =>
      [mkRes "iam_policy" "project-1-iam-policy" (some "project-1")]
  | "bucket", "project-1" => [mkRes "bucket" "bucket-1" (some "project-1")]
  | "dataset", "project-1" => [mkRes "dataset" "dataset-1" (some "project-1")]
  | "instance", "project-1" =>
      [mkRes "instance" "instance-1" (some "project-1")]
  | "firewall", "project-1" =>
      [mkRes "firewall" "firewall-1" (some "project-1")]
  | "image", "project-1" => [mkRes "image" "image-1" (some "project-1")]
  | "network", "project-1" => [mkRes "network" "network-1" (some "project-1")]
  | "subnetwork", "project-1" =>
      [mkRes "subnetwork" "subnetwork-1" (some "project-1")]
  | "sql_instance", "project-1" =>
      [mkRes "sql_instance" "sql-1" (some "project-1")]
  | "appengine_app", "project-1" =>
      [mkRes "appengine_app" "app-1" (some "project-1")]
  | _, _ => []

/-- Modelled from the spec: the reference environment of the test
scenario.  Every enumerator succeeds (full permissions, no transient
failures); the only valid organization id is 660570133860; credentials
are accepted when the service-account file and admin email are
nonempty. -/
def referenceEnv : CrawlEnv :=
  { childrenKinds := refChildrenKinds,
    enumerate := fun k parent => Except.ok (refChildren k parent),
    orgResource := fun oid =>
      if oid = "660570133860" then
        some (mkRes "organization" "660570133860" none)
      else none,
    credsOk := fun sa email => sa ≠ "" && email ≠ "" }

/-- The argument list of the `run_crawler` call in
`CrawlerTest.test_crawling_to_memmory_storage`
(`tests/iam/inventory_tests/crawling_test.py`, lines 69 to 73). -/
def run_crawler_call_args : List String :=
  ["storage", "progresser", "gsuite_sa", "gsuite_admin_email",
   "organization_id"]

/-- Filesystem model for `files.py`: a mapping from path to content,
plus the set of paths where opening for writing raises
`EnvironmentError`. -/
structure FS where
  files : List (String × String)
  readonly : List String
deriving Repr, DecidableEq

/-- `open(path, 'r')` followed by `read()`: the content, or none when
opening raises `EnvironmentError` (file missing). -/
def FS.read (fs : FS) (p : String) : Option String :=
  alookup p fs.files

/-- `open(path, 'w')` followed by `write(content)`: the updated
filesystem, or none when opening raises `EnvironmentError`. -/
def FS.writeFile (fs : FS) (p : String) (c : String) : Option FS :=
  if p ∈ fs.readonly then none else some ⟨upsert p c fs.files, fs.readonly⟩

/-- Scanner state of the `str.format` template scan: literal text,
just after an opening brace, inside a field name, or just after a
closing brace. -/
inductive FmtState where
  | lit
  | braceOpen
  | name (acc : String)
  | braceClose
deriving Repr, DecidableEq

/-- Python `str.format(**values)` on a template, scanning one character
at a time.  `\x7b\x7b` and `\x7d\x7d` are literal-brace escapes; a
completed placeholder name is looked up in the values mapping and a
missing name fails (`KeyError`); a malformed template — stray or
unclosed brace, a brace inside a field name, or an empty field name
with no positional arguments — also fails (`ValueError`/`IndexError`).
All of these failures are modelled as `none`, since
`generate_file_from_template` catches none of them. -/
def fmtGo (vals : List (String × String)) : List Char → FmtState → Option String
  | [], FmtState.lit => some ""
  | [], _ => none
  | c :: rest, FmtState.lit =>
      if c = '\x7b' then fmtGo vals rest FmtState.braceOpen
      else if c = '\x7d' then fmtGo vals rest FmtState.braceClose
      else (fmtGo vals rest FmtState.lit).map (fun t => String.singleton c ++ t)
  | c :: rest, FmtState.braceOpen =>
      if c = '\x7b' then
        (fmtGo vals rest FmtState.lit).map (fun t => "\x7b" ++ t)
      else if c = '\x7d' then none
      else fmtGo vals rest (FmtState.name (String.singleton c))
  | c :: rest, FmtState.name acc =>
      if c = '\x7d' then
        match alookup acc vals with
        | some v => (fmtGo vals rest FmtState.lit).map (fun t => v ++ t)
        | none => none
      else if c = '\x7b' then none
      else fmtGo vals rest (FmtState.name (acc.push c))
  | c :: rest, FmtState.braceClose =>
      if c = '\x7d' then
        (fmtGo vals rest FmtState.lit).map (fun t => "\x7d" ++ t)
      else none

/-- The placeholder names of a template, collected by the same scan as
`fmtGo` (collection stops where the scan fails regardless of the
values mapping). -/
def phGo : List Char → FmtState → List String
  | [], _ => []
  | c :: rest, FmtState.lit =>
      if c = '\x7b' then phGo rest FmtState.braceOpen
      else if c = '\x7d' then phGo rest FmtState.braceClose
      else phGo rest FmtState.lit
  | c :: rest, FmtState.braceOpen =>
      if c = '\x7b' then phGo rest FmtState.lit
      else if c = '\x7d' then []
      else phGo rest (FmtState.name (String.singleton c))
  | c :: rest, FmtState.name acc =>
      if c = '\x7d' then acc :: phGo rest FmtState.lit
      else if c = '\x7b' then []
      else phGo rest (FmtState.name (acc.push c))
  | c :: rest, FmtState.braceClose =>
      if c = '\x7d' then phGo rest FmtState.lit else []

/-- `tmpl_contents.format(**template_values)`. -/
def pyFormat (tmpl : String) (vals : List (String × String)) : Option String :=
  fmtGo vals tmpl.data FmtState.lit

/-- The named placeholders appearing in a template. -/
def placeholders (tmpl : String) : List String :=
  phGo tmpl.data FmtState.lit

/-- `generate_file_from_template` from `files.py`: read the template,
format it with the values, write the result.  `EnvironmentError` on
either open is caught and yields `False`; a formatting failure
(`KeyError` on a missing placeholder, `ValueError` on a malformed
template) is not caught and propagates (`Except.error`). -/
def generate_file_from_template (fs : FS) (template_path : String)
    (output_path : String) (template_values : List (String × String)) :
    Except Unit (FS × Bool) :=
  match fs.read template_path with
  | none => Except.ok (fs, false)
  | some tmpl_contents =>
    match pyFormat tmpl_contents template_values with
    | none => Except.error ()
    | some out_contents =>
      match fs.writeFile output_path out_contents with
      | none => Except.ok (fs, false)
      | some fs2 => Except.ok (fs2, true)

/-- ASCII lower-casing of one character. -/
def lowerChar (c : Char) : Char :=
  if 'A' ≤ c ∧ c ≤ 'Z' then Char.ofNat (c.toNat + 32) else c

/-- Python `str.lower()` on the ASCII template-type strings. -/
def pyLower (s : String) : String := ⟨s.data.map lowerChar⟩

/-- Modelled from the spec: `constants.ROOT_DIR_PATH` is not under
`src/`; a representative absolute installer root. -/
def ROOT_DIR_PATH : String := "/home/user/forseti-security"

/-- `os.path.join` on two components (the paths in `files.py` are
joined from relative components under an absolute root, so
`os.path.abspath` is the identity on them). -/
def pathJoin (a b : String) : String := a ++ "/" ++ b

/-- Modelled from the spec: `constants.INPUT_DEPLOYMENT_TEMPLATE_FILENAME`
is not under `src/`; the docstring of `generate_deployment_templates`
constrains the keys to `cli` and `server`; the filenames are
representative. -/
def INPUT_DEPLOYMENT_TEMPLATE_FILENAME : List (String × String) :=
  [("cli", "deploy-forseti-cli.yaml.in"),
   ("server", "deploy-forseti-server.yaml.in")]

/-- Modelled from the spec: `constants.INPUT_CONFIGURATION_TEMPLATE_FILENAME`
is not under `src/`; the docstring of `generate_forseti_conf` constrains
the keys to `cli` and `server`; the filenames are representative. -/
def INPUT_CONFIGURATION_TEMPLATE_FILENAME : List (String × String) :=
  [("cli", "forseti_conf_cli.yaml.in"),
   ("server", "forseti_conf_server.yaml.in")]

/-- Modelled from the spec: `utils.sanitize_conf_values` is not under
`src/` and the spec does not constrain it; modelled as the identity on
the values mapping. -/
def sanitize_conf_values (vals : List (String × String)) :
    List (String × String) := vals

/-- The input deployment-template path computed by
`generate_deployment_templates`. -/
def deploy_tpl_path (fname : String) : String :=
  pathJoin (pathJoin ROOT_DIR_PATH "deployment-templates") fname

/-- The output deployment-template path computed by
`generate_deployment_templates`. -/
def deploy_out_path (tt ts : String) : String :=
  pathJoin (pathJoin ROOT_DIR_PATH "deployment-templates")
    ("deploy-forseti-" ++ tt ++ "-" ++ ts ++ ".yaml")

/-- The input configuration-template path computed by
`generate_forseti_conf`. -/
def conf_in_path (tt fname : String) : String :=
  pathJoin (pathJoin (pathJoin ROOT_DIR_PATH "configs") tt) fname

/-- The output configuration path computed by `generate_forseti_conf`. -/
def conf_out_path (tt ts : String) : String :=
  pathJoin (pathJoin (pathJoin ROOT_DIR_PATH "configs") tt)
    ("forseti_conf_" ++ tt ++ "_" ++ ts ++ ".yaml")

/-- `generate_deployment_templates` from `files.py`: lower-case the
template type, raise `KeyError` when it is not a key of the deployment
template table, otherwise render the template; return the output path
on success and Python `None` when the file was not generated. -/
def generate_deployment_templates (fs : FS) (template_type : String)
    (values : List (String × String)) (datetimestamp : String) :
    Except Unit (FS × Option String) :=
  let tt := pyLower template_type
  match alookup tt INPUT_DEPLOYMENT_TEMPLATE_FILENAME with
  | none => Except.error ()
  | some input_template_filename =>
    match generate_file_from_template fs
        (deploy_tpl_path input_template_filename)
        (deploy_out_path tt datetimestamp) values with
    | Except.error e => Except.error e
    | Except.ok (fs2, true) =>
        Except.ok (fs2, some (deploy_out_path tt datetimestamp))
    | Except.ok (fs2, false) => Except.ok (fs2, none)

/-- `generate_forseti_conf` from `files.py`: lower-case the template
type, raise `KeyError` when it is not a key of the configuration
template table, otherwise sanitize the values and render the template;
return the output path on success and Python `None` when the file was
not generated. -/
def generate_forseti_conf (fs : FS) (template_type : String)
    (vals : List (String × String)) (datetimestamp : String) :
    Except Unit (FS × Option String) :=
  let tt := pyLower template_type
  match alookup tt INPUT_CONFIGURATION_TEMPLATE_FILENAME with
  | none => Except.error ()
  | some input_template_name =>
    let conf_values := sanitize_conf_values vals
    match generate_file_from_template fs
        (conf_in_path tt input_template_name)
        (conf_out_path tt datetimestamp) conf_values with
    | Except.error e => Except.error e
    | Except.ok (fs2, true) =>
        Except.ok (fs2, some (conf_out_path tt datetimestamp))
    | Except.ok (fs2, false) => Except.ok (fs2, none)

/-- The crawl-run invariant: the storage keys are exactly the visited
keys (in discovery order), the visited keys are pairwise distinct, and
the number of `on_new_object` notifications equals the number of
visited keys. -/
def CrawlInv (s : CrawlState) : Prop :=
  s.storage.mem.map Prod.fst = s.visited.reverse ∧
  s.visited.Nodup ∧
  countNewObjects s.events = s.visited.length

/- ------------------------------------------------------------------ -/
/- Helper lemmas. -/
/- ------------------------------------------------------------------ -/

theorem foldl_preserve {α σ : Type} (P : σ → Prop) (f : σ → α → σ)
    (h : ∀ s a, P s → P (f s a)) :
    ∀ (l : List α) (s : σ), P s → P (l.foldl f s) := by
  intro l
  induction l with
  | nil => intro s hs; simpa using hs
  | cons a t ih =>
    intro s hs
    rw [List.foldl_cons]
    exact ih _ (h s a hs)

theorem upsert_of_not_mem {β : Type} (k : String × String) (r : β)
    (l : List ((String × String) × β)) (h : k ∉ l.map Prod.fst) :
    upsert k r l = l ++ [(k, r)] := by
  induction l with
  | nil => rfl
  | cons p t ih =>
    simp only [List.map_cons, List.mem_cons] at h
    push_neg at h
    have hp : ¬ p.1 = k := fun hp => h.1 hp.symm
    simp only [upsert, if_neg hp, List.cons_append, ih h.2]

theorem map_fst_upsert {β : Type} (k : String × String) (r : β)
    (l : List ((String × String) × β)) :
    (upsert k r l).map Prod.fst =
      if k ∈ l.map Prod.fst then l.map Prod.fst
      else l.map Prod.fst ++ [k] := by
  induction l with
  | nil => simp [upsert]
  | cons p t ih =>
    by_cases hp : p.1 = k
    · simp [upsert, hp]
    · have hk2 : ¬ k = p.1 := fun hh => hp hh.symm
      simp only [upsert, if_neg hp, List.map_cons, ih, List.mem_cons]
      by_cases hk : k ∈ t.map Prod.fst
      · simp [hk, hk2]
      · simp [hk, hk2]

theorem nodup_map_fst_upsert {β : Type} (k : String × String) (r : β)
    (l : List ((String × String) × β))
    (h : (l.map Prod.fst).Nodup) : ((upsert k r l).map Prod.fst).Nodup := by
  rw [map_fst_upsert]
  by_cases hk : k ∈ l.map Prod.fst
  · simpa [hk] using h
  · rw [if_neg hk]
    refine List.Nodup.append h (List.nodup_singleton k) ?_
    intro a ha hak
    rw [List.mem_singleton] at hak
    exact hk (hak ▸ ha)

theorem filter_key_eq_nil {β : Type} (k : String × String)
    (l : List ((String × String) × β)) (h : k ∉ l.map Prod.fst) :
    l.filter (fun p => p.1 = k) = [] := by
  induction l with
  | nil => rfl
  | cons p t ih =>
    simp only [List.map_cons, List.mem_cons] at h
    push_neg at h
    have hp : ¬ p.1 = k := fun hp => h.1 hp.symm
    simp [List.filter_cons, hp, ih h.2]

theorem filter_key_upsert {β : Type} (k : String × String) (r : β)
    (l : List ((String × String) × β))
    (h : (l.map Prod.fst).Nodup) :
    (upsert k r l).filter (fun p => p.1 = k) = [(k, r)] := by
  induction l with
  | nil => simp [upsert]
  | cons p t ih =>
    simp only [List.map_cons, List.nodup_cons] at h
    by_cases hp : p.1 = k
    · have ht : t.filter (fun p => p.1 = k) = [] :=
        filter_key_eq_nil k t (hp ▸ h.1)
      simp only [upsert, if_pos hp, List.filter_cons]
      simp [ht]
    · simp [upsert, hp, List.filter_cons, ih h.2]

theorem countNewObjects_append (a b : List Event) :
    countNewObjects (a ++ b) = countNewObjects a + countNewObjects b := by
  simp [countNewObjects, List.filter_append]

theorem countErrors_append (a b : List Event) :
    countErrors (a ++ b) = countErrors a + countErrors b := by
  simp [countErrors, List.filter_append]

theorem foldl_applyCallback_objects (cs : List Callback) (p : NullProgresser) :
    (cs.foldl applyCallback p).objects =
      p.objects + (cs.filter Callback.isNewObject).length := by
  induction cs generalizing p with
  | nil => simp
  | cons c t ih =>
    rw [List.foldl_cons, ih]
    cases c <;>
      simp [applyCallback, NullProgresser.on_new_object,
        NullProgresser.on_warning, NullProgresser.on_error,
        List.filter_cons, Callback.isNewObject] <;>
      omega

theorem foldl_applyCallback_warnings (cs : List Callback) (p : NullProgresser) :
    (cs.foldl applyCallback p).warnings =
      p.warnings + (cs.filter Callback.isWarning).length := by
  induction cs generalizing p with
  | nil => simp
  | cons c t ih =>
    rw [List.foldl_cons, ih]
    cases c <;>
      simp [applyCallback, NullProgresser.on_new_object,
        NullProgresser.on_warning, NullProgresser.on_error,
        List.filter_cons, Callback.isWarning] <;>
      omega

theorem foldl_applyCallback_errors (cs : List Callback) (p : NullProgresser) :
    (cs.foldl applyCallback p).errors =
      p.errors + (cs.filter Callback.isError).length := by
  induction cs generalizing p with
  | nil => simp
  | cons c t ih =>
    rw [List.foldl_cons, ih]
    cases c <;>
      simp [applyCallback, NullProgresser.on_new_object,
        NullProgresser.on_warning, NullProgresser.on_error,
        List.filter_cons, Callback.isError] <;>
      omega

theorem crawlResource_inv (env : CrawlEnv) :
    ∀ (fuel : Nat) (r : Resource) (s : CrawlState), CrawlInv s →
      CrawlInv (crawlResource env fuel r s) := by
  intro fuel
  induction fuel with
  | zero =>
    intro r s h
    simpa [crawlResource] using h
  | succ fuel ih =>
    intro r s h
    rw [crawlResource]
    refine foldl_preserve CrawlInv _ ?_ _ s h
    intro s1 k h1
    cases henum : env.enumerate k r with
    | error e =>
      cases e <;>
        simpa [henum, CrawlInv, countNewObjects_append, countNewObjects,
          Event.isNewObject] using h1
    | ok children =>
      simp only [henum]
      refine foldl_preserve CrawlInv _ ?_ children s1 h1
      intro s2 c h2
      by_cases hv : rkey c ∈ s2.visited
      · simpa [hv] using h2
      · rw [if_neg hv]
        refine ih c _ ?_
        obtain ⟨hkeys, hnd, hcount⟩ := h2
        refine ⟨?_, ?_, ?_⟩
        · have hnotin : rkey c ∉ s2.storage.mem.map Prod.fst := by
            rw [hkeys, List.mem_reverse]
            exact hv
          simp only [Memory.write, upsert_of_not_mem _ _ _ hnotin,
            List.map_append, hkeys, List.reverse_cons, List.map_cons,
            List.map_nil]
        · exact List.Nodup.cons hv hnd
        · rw [countNewObjects_append, hcount]
          simp [countNewObjects, Event.isNewObject]

theorem crawlResource_no_errors (env : CrawlEnv)
    (henv : ∀ k r, ∃ l, env.enumerate k r = Except.ok l) :
    ∀ (fuel : Nat) (r : Resource) (s : CrawlState),
      countErrors (crawlResource env fuel r s).events =
        countErrors s.events := by
  intro fuel
  induction fuel with
  | zero =>
    intro r s
    simp [crawlResource]
  | succ fuel ih =>
    intro r s
    rw [crawlResource]
    refine foldl_preserve
      (fun s1 => countErrors s1.events = countErrors s.events) _ ?_ _ s rfl
    intro s1 k h1
    obtain ⟨l, hl⟩ := henv k r
    simp only [hl]
    refine foldl_preserve
      (fun s2 => countErrors s2.events = countErrors s.events) _ ?_ l s1 h1
    intro s2 c h2
    by_cases hv : rkey c ∈ s2.visited
    · simpa [hv] using h2
    · rw [if_neg hv, ih, countErrors_append, h2]
      simp [countErrors, Event.isError]

theorem fmtGo_some_keys (vals : List (String × String)) :
    ∀ (cs : List Char) (st : FmtState),
      (∃ out, fmtGo vals cs st = some out) →
      ∀ n ∈ phGo cs st, (alookup n vals).isSome := by
  intro cs
  induction cs with
  | nil =>
    intro st h n hn
    simp [phGo] at hn
  | cons c rest ih =>
    intro st h n hn
    obtain ⟨out, hout⟩ := h
    cases st with
    | lit =>
      simp only [fmtGo] at hout
      simp only [phGo] at hn
      by_cases hb : c = '\x7b'
      · rw [if_pos hb] at hout hn
        exact ih _ ⟨out, hout⟩ n hn
      · rw [if_neg hb] at hout hn
        by_cases hc : c = '\x7d'
        · rw [if_pos hc] at hout hn
          exact ih _ ⟨out, hout⟩ n hn
        · rw [if_neg hc] at hout hn
          cases hrec : fmtGo vals rest FmtState.lit with
          | none => rw [hrec] at hout; simp at hout
          | some t => exact ih _ ⟨t, hrec⟩ n hn
    | braceOpen =>
      simp only [fmtGo] at hout
      simp only [phGo] at hn
      by_cases hb : c = '\x7b'
      · rw [if_pos hb] at hout hn
        cases hrec : fmtGo vals rest FmtState.lit with
        | none => rw [hrec] at hout; simp at hout
        | some t => exact ih _ ⟨t, hrec⟩ n hn
      · rw [if_neg hb] at hout hn
        by_cases hc : c = '\x7d'
        · rw [if_pos hc] at hout
          simp at hout
        · rw [if_neg hc] at hout hn
          exact ih _ ⟨out, hout⟩ n hn
    | name acc =>
      simp only [fmtGo] at hout
      simp only [phGo] at hn
      by_cases hc : c = '\x7d'
      · rw [if_pos hc] at hout hn
        cases hl : alookup acc vals with
        | none => rw [hl] at hout; simp at hout
        | some v =>
          rw [hl] at hout
          rw [List.mem_cons] at hn
          cases hn with
          | inl hacc => rw [hacc, hl]; rfl
          | inr hmem =>
            cases hrec : fmtGo vals rest FmtState.lit with
            | none => rw [hrec] at hout; simp at hout
            | some t => exact ih _ ⟨t, hrec⟩ n hmem
      · rw [if_neg hc] at hout hn
        by_cases hb : c = '\x7b'
        · rw [if_pos hb] at hout
          simp at hout
        · rw [if_neg hb] at hout hn
          exact ih _ ⟨out, hout⟩ n hn
    | braceClose =>
      simp only [fmtGo] at hout
      simp only [phGo] at hn
      by_cases hc : c = '\x7d'
      · rw [if_pos hc] at hout hn
        cases hrec : fmtGo vals rest FmtState.lit with
        | none => rw [hrec] at hout; simp at hout
        | some t => exact ih _ ⟨t, hrec⟩ n hn
      · rw [if_neg hc] at hn
        simp at hn

/- ------------------------------------------------------------------ -/
/- Claim theorems. -/
/- ------------------------------------------------------------------ -/

/-- C1: crawling the reference organization 660570133860 with the
directory-service credential file and admin email of the test, in the
fully-permissioned reference environment, leaves resources of exactly
18 distinct types in the Memory storage, with zero progresser errors
and no fatal failure. -/
theorem reference_crawl_eighteen_types_zero_errors :
    (((run_crawler referenceEnv 10 (Memory.mk [])
        "/Users/fmatenaar/deployments/forseti/groups.json"
        "felix@henrychang.mygbiz.com"
        "660570133860").storage.mem.map (fun p => p.2.type)).dedup).length
        = 18 ∧
    countErrors (run_crawler referenceEnv 10 (Memory.mk [])
        "/Users/fmatenaar/deployments/forseti/groups.json"
        "felix@henrychang.mygbiz.com"
        "660570133860").events = 0 ∧
    (run_crawler referenceEnv 10 (Memory.mk [])
        "/Users/fmatenaar/deployments/forseti/groups.json"
        "felix@henrychang.mygbiz.com"
        "660570133860").fatal = none := by
  refine ⟨?_, ?_, ?_⟩ <;> decide

/-- C2: for every crawl run started on an empty storage, the storage
keys — the (kind, identity key) pairs written — are pairwise distinct,
and their number equals the number of `on_new_object` notifications:
no resource is notified twice even if an enumerator re-lists it. -/
theorem crawl_dedup (env : CrawlEnv) (fuel : Nat)
    (sa email oid : String) :
    ((run_crawler env fuel (Memory.mk []) sa email oid).storage.mem.map
        Prod.fst).Nodup ∧
    (run_crawler env fuel (Memory.mk []) sa email oid).storage.mem.length =
      countNewObjects (run_crawler env fuel (Memory.mk []) sa email oid).events := by
  unfold run_crawler
  by_cases hc : env.credsOk sa email
  · simp only [hc, if_pos]
    cases horg : env.orgResource oid with
    | none => simp [countNewObjects]
    | some root =>
      simp only []
      have h0 : CrawlInv
          { storage := (Memory.mk []).write root,
            visited := [rkey root],
            events := [Event.newObject root] } := by
        refine ⟨?_, ?_, ?_⟩
        · simp [Memory.write, upsert]
        · simp
        · simp [countNewObjects, Event.isNewObject]
      have h := crawlResource_inv env fuel root _ h0
      obtain ⟨hkeys, hnd, hcount⟩ := h
      constructor
      · rw [hkeys]
        exact (List.nodup_reverse).mpr hnd
      · have hlen : (crawlResource env fuel root
            { storage := (Memory.mk []).write root,
              visited := [rkey root],
              events := [Event.newObject root] }).storage.mem.length =
            (crawlResource env fuel root
              { storage := (Memory.mk []).write root,
                visited := [rkey root],
                events := [Event.newObject root] }).visited.length := by
          rw [← List.length_map _ Prod.fst, hkeys, List.length_reverse]
        rw [hlen, hcount]
  · simp [hc, countNewObjects]

/-- C3 counterexample: the `run_crawler` call site in the test passes
five arguments, not four. -/
theorem run_crawler_not_four_args : ¬ (run_crawler_call_args.length = 4) := by
  decide

/-- C3 amended: `run_crawler` takes exactly five arguments — the
storage sink, the progresser, the directory-service credential file,
the directory admin email, and the organization identifier (the
directory-service credential is two arguments, not one). -/
theorem run_crawler_five_args :
    run_crawler_call_args.length = 5 ∧
    run_crawler_call_args =
      ["storage", "progresser", "gsuite_sa", "gsuite_admin_email",
       "organization_id"] := by
  refine ⟨?_, ?_⟩ <;> decide

/-- C5: an organization id that the environment does not know causes
the run to fail fatally, with the storage left exactly as it was and no
progresser notification emitted. -/
theorem run_crawler_invalid_org (env : CrawlEnv) (fuel : Nat)
    (storage : Memory) (sa email oid : String)
    (h : env.orgResource oid = none) :
    (run_crawler env fuel storage sa email oid).fatal.isSome = true ∧
    (run_crawler env fuel storage sa email oid).storage = storage ∧
    (run_crawler env fuel storage sa email oid).events = [] := by
  unfold run_crawler
  by_cases hc : env.credsOk sa email
  · simp [hc, h]
  · simp [hc]

/-- C5 witness: at the reference environment with an unknown
organization id, the run fails with the storage unchanged. -/
theorem run_crawler_invalid_org_witness :
    (run_crawler referenceEnv 10 (Memory.mk []) "sa.json" "admin@test.com"
      "999").fatal.isSome = true ∧
    (run_crawler referenceEnv 10 (Memory.mk []) "sa.json" "admin@test.com"
      "999").storage = Memory.mk [] ∧
    (run_crawler referenceEnv 10 (Memory.mk []) "sa.json" "admin@test.com"
      "999").events = [] :=
  run_crawler_invalid_org referenceEnv 10 (Memory.mk []) "sa.json"
    "admin@test.com" "999" (by decide)

/-- C6: when every enumerator invocation succeeds (full permissions, no
transient provider failures), a crawl run emits zero error
notifications. -/
theorem run_crawler_no_false_errors (env : CrawlEnv) (fuel : Nat)
    (storage : Memory) (sa email oid : String)
    (henv : ∀ k r, ∃ l, env.enumerate k r = Except.ok l) :
    countErrors (run_crawler env fuel storage sa email oid).events = 0 := by
  unfold run_crawler
  by_cases hc : env.credsOk sa email
  · simp only [hc, if_pos]
    cases horg : env.orgResource oid with
    | none => simp [countErrors]
    | some root =>
      simp only []
      rw [crawlResource_no_errors env henv fuel root]
      simp [countErrors, Event.isError]
  · simp [hc, countErrors]

/-- C6 witness: in the reference environment every enumerator succeeds
and the run reports zero errors. -/
theorem run_crawler_no_false_errors_witness :
    countErrors (run_crawler referenceEnv 10 (Memory.mk []) "sa.json"
      "admin@test.com" "660570133860").events = 0 :=
  run_crawler_no_false_errors referenceEnv 10 (Memory.mk []) "sa.json"
    "admin@test.com" "660570133860"
    (fun k r => ⟨refChildren k r, rfl⟩)

/-- C7: writing two resources with the same (kind, identity key) leaves
exactly one entry under that key, and its payload is the payload of the
later write. -/
theorem memory_write_idempotent (m : Memory) (r1 r2 : Resource)
    (hk : rkey r1 = rkey r2)
    (hnd : (m.mem.map Prod.fst).Nodup) :
    ((m.write r1).write r2).mem.filter (fun p => p.1 = rkey r2) =
      [(rkey r2, r2)] ∧
    (((m.write r1).write r2).mem.filter (fun p => p.1 = rkey r2)).map
      (fun p => p.2.payload) = [r2.payload] := by
  have hnd1 : (((m.write r1).mem).map Prod.fst).Nodup :=
    nodup_map_fst_upsert (rkey r1) r1 m.mem hnd
  have hfil : ((m.write r1).write r2).mem.filter (fun p => p.1 = rkey r2) =
      [(rkey r2, r2)] :=
    filter_key_upsert (rkey r2) r2 (m.write r1).mem hnd1
  exact ⟨hfil, by rw [hfil]; rfl⟩

/-- C7 witness: overwriting key (project, p-1) on a singleton storage
leaves one entry carrying the second payload. -/
theorem memory_write_idempotent_witness :
    ((((Memory.mk []).write (Resource.mk "project" "p-1" none "old")).write
        (Resource.mk "project" "p-1" none "new")).mem.filter
          (fun p => p.1 = rkey (Resource.mk "project" "p-1" none "new")) =
      [(rkey (Resource.mk "project" "p-1" none "new"),
        Resource.mk "project" "p-1" none "new")]) ∧
    (((((Memory.mk []).write (Resource.mk "project" "p-1" none "old")).write
        (Resource.mk "project" "p-1" none "new")).mem.filter
          (fun p => p.1 = rkey (Resource.mk "project" "p-1" none "new"))).map
            (fun p => p.2.payload) = ["new"]) :=
  memory_write_idempotent (Memory.mk [])
    (Resource.mk "project" "p-1" none "old")
    (Resource.mk "project" "p-1" none "new") (by decide) (by decide)

/-- C9: a `NullProgresser` starts with all three counters at zero; each
callback increments exactly its own counter by one and leaves the other
two unchanged; and after any sequence of callbacks each counter equals
the number of calls to its corresponding callback. -/
theorem null_progresser_counters :
    (NullProgresser.init.errors = 0 ∧ NullProgresser.init.objects = 0 ∧
      NullProgresser.init.warnings = 0) ∧
    (∀ (p : NullProgresser) (r : Resource),
      (p.on_new_object r).objects = p.objects + 1 ∧
      (p.on_new_object r).warnings = p.warnings ∧
      (p.on_new_object r).errors = p.errors) ∧
    (∀ (p : NullProgresser) (w : String),
      (p.on_warning w).warnings = p.warnings + 1 ∧
      (p.on_warning w).objects = p.objects ∧
      (p.on_warning w).errors = p.errors) ∧
    (∀ (p : NullProgresser) (e : String),
      (p.on_error e).errors = p.errors + 1 ∧
      (p.on_error e).objects = p.objects ∧
      (p.on_error e).warnings = p.warnings) ∧
    (∀ (cs : List Callback),
      (runCallbacks NullProgresser.init cs).objects =
        (cs.filter Callback.isNewObject).length ∧
      (runCallbacks NullProgresser.init cs).warnings =
        (cs.filter Callback.isWarning).length ∧
      (runCallbacks NullProgresser.init cs).errors =
        (cs.filter Callback.isError).length) := by
  refine ⟨⟨rfl, rfl, rfl⟩, ?_, ?_, ?_, ?_⟩
  · intro p r
    exact ⟨rfl, rfl, rfl⟩
  · intro p w
    exact ⟨rfl, rfl, rfl⟩
  · intro p e
    exact ⟨rfl, rfl, rfl⟩
  · intro cs
    refine ⟨?_, ?_, ?_⟩
    · simpa [NullProgresser.init] using
        foldl_applyCallback_objects cs NullProgresser.init
    · simpa [NullProgresser.init] using
        foldl_applyCallback_warnings cs NullProgresser.init
    · simpa [NullProgresser.init] using
        foldl_applyCallback_errors cs NullProgresser.init

/-- C4: `generate_file_from_template` materializes the output file with
the named placeholders substituted when the template exists, every
placeholder is bound and the output is writable; when the template file
is missing it fails (returns `False`) with the filesystem unchanged;
and when the values mapping lacks a placeholder named in the template
it fails with an uncaught `KeyError`, also producing no content. -/
theorem generate_file_from_template_spec :
    (∀ (fs : FS) (tp op : String) (vals : List (String × String))
        (tmpl out : String),
      fs.read tp = some tmpl → pyFormat tmpl vals = some out →
      op ∉ fs.readonly →
      generate_file_from_template fs tp op vals =
        Except.ok (FS.mk (upsert op out fs.files) fs.readonly, true)) ∧
    (∀ (fs : FS) (tp op : String) (vals : List (String × String)),
      fs.read tp = none →
      generate_file_from_template fs tp op vals = Except.ok (fs, false)) ∧
    (∀ (fs : FS) (tp op : String) (vals : List (String × String))
        (tmpl n : String),
      fs.read tp = some tmpl → n ∈ placeholders tmpl →
      alookup n vals = none →
      generate_file_from_template fs tp op vals = Except.error ()) := by
  refine ⟨?_, ?_, ?_⟩
  · intro fs tp op vals tmpl out hr hf hw
    simp only [generate_file_from_template, hr, hf, FS.writeFile, if_neg hw]
  · intro fs tp op vals hr
    simp only [generate_file_from_template, hr]
  · intro fs tp op vals tmpl n hr hn hl
    have hfmt : pyFormat tmpl vals = none := by
      cases hf : pyFormat tmpl vals with
      | none => rfl
      | some out =>
        have hk := fmtGo_some_keys vals tmpl.data FmtState.lit ⟨out, hf⟩ n hn
        rw [hl] at hk
        simp at hk
    simp only [generate_file_from_template, hr, hfmt]

/-- C4 witness: a concrete successful render, a missing template file,
and a template whose placeholder is absent from the values mapping. -/
theorem generate_file_from_template_spec_witness :
    (generate_file_from_template
        (FS.mk [("tpl.in", "name: \x7bname\x7d")] [])
        "tpl.in" "out.yaml" [("name", "forseti")] =
      Except.ok (FS.mk
        (upsert "out.yaml" "name: forseti"
          [("tpl.in", "name: \x7bname\x7d")]) [], true)) ∧
    (generate_file_from_template (FS.mk [] []) "missing.in" "out.yaml" [] =
      Except.ok (FS.mk [] [], false)) ∧
    (generate_file_from_template
        (FS.mk [("tpl.in", "name: \x7bname\x7d")] [])
        "tpl.in" "out.yaml" [] = Except.error ()) :=
  ⟨generate_file_from_template_spec.1 (FS.mk [("tpl.in", "name: \x7bname\x7d")] [])
      "tpl.in" "out.yaml" [("name", "forseti")] "name: \x7bname\x7d"
      "name: forseti" (by decide) (by decide) (by decide),
   generate_file_from_template_spec.2.1 (FS.mk [] []) "missing.in" "out.yaml"
      [] (by decide),
   generate_file_from_template_spec.2.2
      (FS.mk [("tpl.in", "name: \x7bname\x7d")] []) "tpl.in" "out.yaml" []
      "name: \x7bname\x7d" "name" (by decide) (by decide) (by decide)⟩

/-- C8: a template type whose lower-casing is a key of neither template
table makes `generate_deployment_templates` and `generate_forseti_conf`
raise `KeyError` at the call site instead of returning a value. -/
theorem unknown_template_type_raises (fs : FS) (template_type : String)
    (values : List (String × String)) (datetimestamp : String)
    (hd : alookup (pyLower template_type)
      INPUT_DEPLOYMENT_TEMPLATE_FILENAME = none)
    (hc : alookup (pyLower template_type)
      INPUT_CONFIGURATION_TEMPLATE_FILENAME = none) :
    generate_deployment_templates fs template_type values datetimestamp =
      Except.error () ∧
    generate_forseti_conf fs template_type values datetimestamp =
      Except.error () := by
  constructor
  · simp only [generate_deployment_templates, hd]
  · simp only [generate_forseti_conf, hc]

/-- C8 witness: the unknown template type `Bogus` makes both generators
raise. -/
theorem unknown_template_type_raises_witness :
    generate_deployment_templates (FS.mk [] []) "Bogus" [] "ts1" =
      Except.error () ∧
    generate_forseti_conf (FS.mk [] []) "Bogus" [] "ts1" =
      Except.error () :=
  unknown_template_type_raises (FS.mk [] []) "Bogus" [] "ts1"
    (by decide) (by decide)

/-- C10: for a known template type, both generators return the output
path exactly when the template was rendered and written, and return
Python `None` — rather than raising — when the template file cannot be
read or the output cannot be written. -/
theorem known_template_type_returns_path_or_none
    (fs : FS) (template_type : String) (values : List (String × String))
    (ts fname : String) :
    ((alookup (pyLower template_type)
        INPUT_DEPLOYMENT_TEMPLATE_FILENAME = some fname) →
      (fs.read (deploy_tpl_path fname) = none →
        generate_deployment_templates fs template_type values ts =
          Except.ok (fs, none)) ∧
      (∀ tmpl out, fs.read (deploy_tpl_path fname) = some tmpl →
        pyFormat tmpl values = some out →
        deploy_out_path (pyLower template_type) ts ∈ fs.readonly →
        generate_deployment_templates fs template_type values ts =
          Except.ok (fs, none)) ∧
      (∀ tmpl out, fs.read (deploy_tpl_path fname) = some tmpl →
        pyFormat tmpl values = some out →
        deploy_out_path (pyLower template_type) ts ∉ fs.readonly →
        generate_deployment_templates fs template_type values ts =
          Except.ok (FS.mk
            (upsert (deploy_out_path (pyLower template_type) ts) out fs.files)
            fs.readonly,
            some (deploy_out_path (pyLower template_type) ts)))) ∧
    ((alookup (pyLower template_type)
        INPUT_CONFIGURATION_TEMPLATE_FILENAME = some fname) →
      (fs.read (conf_in_path (pyLower template_type) fname) = none →
        generate_forseti_conf fs template_type values ts =
          Except.ok (fs, none)) ∧
      (∀ tmpl out,
        fs.read (conf_in_path (pyLower template_type) fname) = some tmpl →
        pyFormat tmpl (sanitize_conf_values values) = some out →
        conf_out_path (pyLower template_type) ts ∈ fs.readonly →
        generate_forseti_conf fs template_type values ts =
          Except.ok (fs, none)) ∧
      (∀ tmpl out,
        fs.read (conf_in_path (pyLower template_type) fname) = some tmpl →
        pyFormat tmpl (sanitize_conf_values values) = some out →
        conf_out_path (pyLower template_type) ts ∉ fs.readonly →
        generate_forseti_conf fs template_type values ts =
          Except.ok (FS.mk
            (upsert (conf_out_path (pyLower template_type) ts) out fs.files)
            fs.readonly,
            some (conf_out_path (pyLower template_type) ts)))) := by
  constructor
  · intro hd
    refine ⟨?_, ?_, ?_⟩
    · intro hr
      simp only [generate_deployment_templates, hd,
        generate_file_from_template, hr]
    · intro tmpl out hr hf hro
      simp only [generate_deployment_templates, hd,
        generate_file_from_template, hr, hf, FS.writeFile, if_pos hro]
    · intro tmpl out hr hf hro
      simp only [generate_deployment_templates, hd,
        generate_file_from_template, hr, hf, FS.writeFile, if_neg hro]
  · intro hc
    refine ⟨?_, ?_, ?_⟩
    · intro hr
      simp only [generate_forseti_conf, hc,
        generate_file_from_template, hr]
    · intro tmpl out hr hf hro
      simp only [generate_forseti_conf, hc,
        generate_file_from_template, hr, hf, FS.writeFile, if_pos hro]
    · intro tmpl out hr hf hro
      simp only [generate_forseti_conf, hc,
        generate_file_from_template, hr, hf, FS.writeFile, if_neg hro]

/-- C10 witness: with the `cli` template type, a successful deployment
render returns the output path, and a read-protected configuration
output makes `generate_forseti_conf` return `None`. -/
theorem known_template_type_returns_path_or_none_witness :
    (generate_deployment_templates
        (FS.mk [(deploy_tpl_path "deploy-forseti-cli.yaml.in",
          "zone: \x7bzone\x7d")] []) "CLI" [("zone", "us-east1")] "ts1" =
      Except.ok (FS.mk
        (upsert (deploy_out_path (pyLower "CLI") "ts1") "zone: us-east1"
          [(deploy_tpl_path "deploy-forseti-cli.yaml.in",
            "zone: \x7bzone\x7d")]) [],
        some (deploy_out_path (pyLower "CLI") "ts1"))) ∧
    (generate_forseti_conf
        (FS.mk [(conf_in_path (pyLower "CLI") "forseti_conf_cli.yaml.in",
          "email: \x7bemail\x7d")] [conf_out_path (pyLower "CLI") "ts1"])
        "CLI" [("email", "a@b.c")] "ts1" =
      Except.ok (FS.mk
        [(conf_in_path (pyLower "CLI") "forseti_conf_cli.yaml.in",
          "email: \x7bemail\x7d")] [conf_out_path (pyLower "CLI") "ts1"],
        none)) :=
  ⟨((known_template_type_returns_path_or_none
      (FS.mk [(deploy_tpl_path "deploy-forseti-cli.yaml.in",
        "zone: \x7bzone\x7d")] []) "CLI" [("zone", "us-east1")] "ts1"
      "deploy-forseti-cli.yaml.in").1 (by decide)).2.2
      "zone: \x7bzone\x7d" "zone: us-east1" (by decide) (by decide)
      (by decide),
   ((known_template_type_returns_path_or_none
      (FS.mk [(conf_in_path (pyLower "CLI") "forseti_conf_cli.yaml.in",
        "email: \x7bemail\x7d")] [conf_out_path (pyLower "CLI") "ts1"])
      "CLI" [("email", "a@b.c")] "ts1"
      "forseti_conf_cli.yaml.in").2 (by decide)).2.1
      "email: \x7bemail\x7d" "email: a@b.c" (by decide) (by decide)
      (by decide)⟩

end Forseti
